import Mathlib

/-!
Shallow embedding of the melting-curve evaluation core of `solliq.py`
(solidus/liquidus parameterizations for geomaterials), together with
theorems checking the specified properties of that code.

Machine floats are modelled by real numbers; the Python `**` operator on
positive bases is modelled by `Real.rpow`; fallible lookups (`raise`)
are modelled by `Except`; the module-level variables `Mg0`, `Mg0_E`
written by `Tsol_intp` are modelled by explicit state passing.
-/

/-! ## Terrestrial peridotite solidus (`Tsol_Earth`) -/

/-- First segment (`p < 10`) of the terrestrial peridotite solidus. -/
noncomputable def TsE1 (p : ℝ) : ℝ := 1358.81061 + (132.899012 - 5.1404654 * p) * p

/-- Second segment (`10 ≤ p < 23.5`), written with `pr = p - 10` as in the source. -/
noncomputable def TsE2 (p : ℝ) : ℝ := (-1.092 * (p - 10) + 32.39) * (p - 10) + 2173.15

/-- Third segment (`p ≥ 23.5`) of the terrestrial peridotite solidus. -/
noncomputable def TsE3 (p : ℝ) : ℝ :=
  -1647.15020384 - 5.85124635 * p + 1329.1263647 * Real.log p

/-- `Tsol_Earth(p)`: piecewise terrestrial peridotite solidus. -/
noncomputable def Tsol_Earth (p : ℝ) : ℝ :=
  if p < 10 then TsE1 p else if p < 23.5 then TsE2 p else TsE3 p

/-- `Tsol_CMAS(p)`: CMAS solidus; above 23.5 GPa the shifted terrestrial solidus. -/
noncomputable def Tsol_CMAS (p : ℝ) : ℝ :=
  if p < 23.5 then 1477.54 + (139.391 - (7.7545 - 0.160258 * p) * p) * p
  else Tsol_Earth p + 139.2162

/-- `Tsol_Mars(p)`: Martian peridotite solidus. -/
noncomputable def Tsol_Mars (p : ℝ) : ℝ :=
  if p < 23 then ((0.118912 * p - 6.37695) * p + 130.33) * p + 1340.38
  else 62.5 * p + 975

/-! ## Atomic masses and mass/mole conversion -/

/-- Atomic-mass dictionary `u` (IUPAC 2013), in kg/mol; `none` for absent keys. -/
noncomputable def u_mass (el : String) : Option ℝ :=
  if el = "O" then some 0.015999
  else if el = "Na" then some 0.02298976928
  else if el = "Mg" then some 0.024305
  else if el = "S" then some 0.03206
  else if el = "K" then some 0.0390983
  else if el = "Fe" then some 0.055845
  else none

/-- The table entry `u['Fe']`. -/
noncomputable def uFe : ℝ := 0.055845

/-- `mass2mol(el, xel)`: mass fraction to mole fraction in a binary el-Fe
composite. An unsupported element symbol raises `NameError` (modelled as
`Except.error` with the source's message); Python float division raises
`ZeroDivisionError` when a divisor is zero, first in `1./xel` and then in
the outer `1/(...)`, so both zero-divisor paths are modelled as errors. -/
noncomputable def mass2mol (el : String) (xel : ℝ) : Except String ℝ :=
  match u_mass el with
  | some uel =>
    if xel = 0 then Except.error "ZeroDivisionError: float division by zero"
    else if 1 + uel / uFe * (1 / xel - 1) = 0 then
      Except.error "ZeroDivisionError: float division by zero"
    else Except.ok (1 / (1 + uel / uFe * (1 / xel - 1)))
  | none => Except.error ("Atomic mass for element " ++ el ++ " unavailable.")

/-- `mol2mass(el, xel)`: mole fraction to mass fraction in a binary el-Fe
composite. An unsupported element symbol raises `NameError`; a zero
denominator raises `ZeroDivisionError`, modelled as an error. -/
noncomputable def mol2mass (el : String) (xel : ℝ) : Except String ℝ :=
  match u_mass el with
  | some uel =>
    if xel * uel + (1 - xel) * uFe = 0 then
      Except.error "ZeroDivisionError: float division by zero"
    else Except.ok (xel * uel / (xel * uel + (1 - xel) * uFe))
  | none => Except.error ("Atomic mass for element " ++ el ++ " unavailable.")

/-! ## Compositional interpolation (`Tsol_intp`) -/

/-- Oxide mass-fraction mapping (keys `MgO`, `FeO`, `Na2O`, `K2O`). -/
structure Ox where
  MgO : ℝ
  FeO : ℝ
  Na2O : ℝ
  K2O : ℝ

/-- Reference bulk silicate Earth composition `ox_E`. -/
noncomputable def ox_E : Ox := ⟨0.3677, 0.081, 0.0035, 0.0003⟩

/-- Reference bulk silicate Mars composition `ox_M`. -/
noncomputable def ox_M : Ox := ⟨0.302, 0.179, 0.005, 0.0004⟩

/-- Molar mass of MgO, `u['Mg']+u['O']`. -/
noncomputable def uMgO : ℝ := 0.024305 + 0.015999

/-- Molar mass of FeO, `u['Fe']+u['O']`. -/
noncomputable def uFeO : ℝ := 0.055845 + 0.015999

/-- Alkali sensitivity `dTsdNaK` (K per unit alkali mass fraction). -/
noncomputable def dTsdNaK : ℝ := -14951.52

/-- The Mg# `el1/(el1+el2)` with `el1 = MgO/uMgO`, `el2 = FeO/uFeO`,
as computed (twice, inline) in `Tsol_intp`. -/
noncomputable def mgNumber (o : Ox) : ℝ :=
  (o.MgO / uMgO) / (o.MgO / uMgO + o.FeO / uFeO)

/-- Return value of `Tsol_intp(p, ox)`: Mg#-weighted interpolation between the
terrestrial solidus and the Mars (iron-rich) or CMAS (iron-poor) solidus with
alkali corrections. -/
noncomputable def Tsol_intp (p : ℝ) (ox : Ox) : ℝ :=
  let Mg0_E := mgNumber ox_E
  let xwNaK_E := ox_E.Na2O + ox_E.K2O
  let Mg0 := mgNumber ox
  let TsE := Tsol_Earth p
  if Mg0 < Mg0_E then
    let w_dMg0 := (Mg0_E - Mg0) / (Mg0_E - mgNumber ox_M)
    let TsM := Tsol_Mars p - dTsdNaK * (ox_M.Na2O + ox_M.K2O - xwNaK_E)
    (1 - w_dMg0) * TsE + w_dMg0 * TsM + dTsdNaK * (ox.Na2O + ox.K2O - xwNaK_E)
  else
    let w_dMg0 := (Mg0 - Mg0_E) / (1 - Mg0_E)
    let TsM := Tsol_CMAS p + dTsdNaK * xwNaK_E
    (1 - w_dMg0) * TsE + w_dMg0 * TsM + dTsdNaK * (ox.Na2O + ox.K2O - xwNaK_E)

/-- Module-level mutable state written by `Tsol_intp` via `global Mg0, Mg0_E`;
`none` models a not-yet-assigned module variable. -/
structure GState where
  Mg0 : Option ℝ
  Mg0_E : Option ℝ

/-- Stateful model of the call `Tsol_intp(p, ox)`: the body assigns the module
variables `Mg0_E` and `Mg0` (reading neither beforehand) and returns the
interpolated solidus. -/
noncomputable def Tsol_intp_st (p : ℝ) (ox : Ox) (_s : GState) : ℝ × GState :=
  (Tsol_intp p ox, { Mg0 := some (mgNumber ox), Mg0_E := some (mgNumber ox_E) })

/-! ## Basalt/eclogite solidus (`Tsol_bas`) -/

/-- Garnet/majorite-field formula `Tsgt` (local lambda in the source). -/
noncomputable def Tsgt (p : ℝ) : ℝ := (-1.273 * p + 78.676) * p + 1380.92

/-- Perovskite-field formula `Tsbr` (local lambda in the source). -/
noncomputable def Tsbr (p : ℝ) : ℝ := (-0.0503 * p + 19.277) * p + 2165.09

/-- Plagioclase-field formula (`p < 3` branch of `Tsol_bas`), with `p2 = p*p`. -/
noncomputable def TsbasPlag (p : ℝ) : ℝ := (1.83261 * (p * p) + 13.0994) * (p * p) + 1340

/-- `Tsol_bas(p)`: piecewise basalt/eclogite solidus with a linear shift from
`Tsgt` to `Tsbr` between 26 and 30 GPa. -/
noncomputable def Tsol_bas (p : ℝ) : ℝ :=
  if p < 3 then TsbasPlag p
  else if p < 26 then Tsgt p
  else if p < 30 then (Tsgt p * (30 - p) + Tsbr p * (p - 26)) / (30 - 26)
  else Tsbr p

/-! ## Forsterite liquidus (`Tliqfo`) -/

/-- The cubic forsterite liquidus fit polynomial (the `p ≤ 14.64` branch). -/
noncomputable def Tliqfo_poly (p : ℝ) : ℝ :=
  2160.6 + (64.7109 - (3.97463 - 0.0957894 * p) * p) * p

/-- `Tliqfo(p)`: forsterite liquidus, clamped to the constant 2557.6807 above
the fit validity limit 14.64 GPa. -/
noncomputable def Tliqfo (p : ℝ) : ℝ :=
  if p > 14.64 then 2557.6807 else Tliqfo_poly p

/-- Truth value of the out-of-range warning printed by `Tliqfo` (the `print`
in the `p > pmaxfit` branch). -/
noncomputable def Tliqfo_warns (p : ℝ) : Bool :=
  if p > 14.64 then true else false

/-! ## Iron, FeS, eutectic, alloy melting point -/

/-- Flat-gradient piecewise iron melting curve (the `mode == 'f'` branch). -/
noncomputable def TliqFe_flat (p : ℝ) : ℝ :=
  if p ≤ 8.044 then 1811 + 30.9724 * p
  else if p ≤ 87.06 then 1907.47 + (19.8675 - 0.1103 * p) * p
  else 2130.55 + (7.2054 + 0.00571047 * p) * p

/-- Steep-gradient uniform cubic iron melting curve (the `else` branch). -/
noncomputable def TliqFe_steep (p : ℝ) : ℝ :=
  1811 + (24.7307 - (0.0627041 - 0.0000614455 * p) * p) * p

/-- `Tliq_Fe(p, mode)`: iron melting curve; `mode == 'f'` selects the flat
piecewise fit, any other mode value falls through to the steep cubic. -/
noncomputable def Tliq_Fe (p : ℝ) (mode : String) : ℝ :=
  if mode = "f" then TliqFe_flat p else TliqFe_steep p

/-- `Tliq_FeS(p)`: FeS melting curve (Simon-Glatzel form). -/
noncomputable def Tliq_FeS (p : ℝ) : ℝ := 638.5613 * (p + 13.2844) ^ (0.3216 : ℝ)

/-- `Xeut(p)`: eutectic mole fraction of S in the Fe-FeS system. -/
noncomputable def Xeut (p : ℝ) : ℝ := 0.925 / (p + 8.444) ^ (0.373 : ℝ)

/-- Pressure-dependent exponent `fxp` used by `Teut`. -/
noncomputable def fxp (p : ℝ) : ℝ :=
  0.49 * (1 - 0.085 * (0.5 - Real.arctan (0.007 * (250 - p)) / Real.pi))

/-- `Teut(p)`: eutectic temperature of the Fe-FeS system. -/
noncomputable def Teut (p : ℝ) : ℝ :=
  255 * (p + 8) ^ fxp p + 600 * Real.exp (-0.012 * (p + 2) ^ 2)

/-- Fe-rich branch of `Tmalloy` (`X ≤ Xeut(p)`), after the in-place updates of
`Tm` are unfolded. -/
noncomputable def Tmalloy_Fe (p X : ℝ) (mode : String) : ℝ :=
  Tliq_Fe p mode -
    (Tliq_Fe p mode - Teut p) * Real.log (1 - X) / Real.log (1 - Xeut p)

/-- Fe-poor branch of `Tmalloy` (`X > Xeut(p)`). -/
noncomputable def Tmalloy_FeS (p X : ℝ) : ℝ :=
  Tliq_FeS p - (Tliq_FeS p - Teut p) * Real.log (0.5 + X) / Real.log (0.5 + Xeut p)

/-- `Tmalloy(p, X, mode)`: melting point of an Fe-S alloy with S mole fraction
`X`, by rescaled logarithmic depression on either side of the eutectic. -/
noncomputable def Tmalloy (p X : ℝ) (mode : String) : ℝ :=
  if X ≤ Xeut p then Tmalloy_Fe p X mode else Tmalloy_FeS p X

/-! ## Helper lemmas (shared) -/

/-- Raising `a ^ 0.373` to the 1000th power gives `a ^ 373`. -/
lemma rpow_key (a : ℝ) (ha : 0 ≤ a) :
    (a ^ ((0.373 : ℝ))) ^ (1000 : ℕ) = a ^ (373 : ℕ) := by
  rw [← Real.rpow_natCast (a ^ ((0.373:ℝ))) 1000, ← Real.rpow_mul ha]
  norm_num
  rw [show ((373:ℝ)) = ((373:ℕ):ℝ) by norm_num, Real.rpow_natCast]

/-- Rational lower bounds on `a ^ 0.373` from 1000th-power comparisons. -/
lemma lt_rpow373_of_pow_lt {a c : ℝ} (ha : 0 ≤ a) (h : c ^ (1000:ℕ) < a ^ (373:ℕ)) :
    c < a ^ ((0.373:ℝ)) := by
  have hnn : (0:ℝ) ≤ a ^ ((0.373:ℝ)) := Real.rpow_nonneg ha _
  refine lt_of_pow_lt_pow_left₀ 1000 hnn ?_
  rwa [rpow_key a ha]

/-- Rational upper bounds on `a ^ 0.373` from 1000th-power comparisons. -/
lemma rpow373_lt_of_pow_lt {a c : ℝ} (ha : 0 ≤ a) (hc : 0 ≤ c)
    (h : a ^ (373:ℕ) < c ^ (1000:ℕ)) : a ^ ((0.373:ℝ)) < c := by
  refine lt_of_pow_lt_pow_left₀ 1000 hc ?_
  rwa [rpow_key a ha]

set_option maxHeartbeats 1000000 in
/-- The denominator power of `Xeut` at zero pressure exceeds 1.85. -/
lemma rpow_8444_gt : (1.85:ℝ) < (8.444:ℝ) ^ ((0.373:ℝ)) := by
  refine lt_rpow373_of_pow_lt (by norm_num) ?_
  norm_num

set_option maxHeartbeats 1000000 in
/-- Two-sided rational bounds on `8.444 ^ 0.373`. -/
lemma rpow_8444_bounds :
    (2.2131:ℝ) < (8.444:ℝ) ^ ((0.373:ℝ)) ∧ (8.444:ℝ) ^ ((0.373:ℝ)) < 2.2235 := by
  constructor
  · refine lt_rpow373_of_pow_lt (by norm_num) ?_
    norm_num
  · refine rpow373_lt_of_pow_lt (by norm_num) (by norm_num) ?_
    norm_num

/-- The eutectic composition is positive at every nonnegative pressure. -/
lemma Xeut_pos {p : ℝ} (hp : 0 ≤ p) : 0 < Xeut p := by
  rw [Xeut]
  apply div_pos (by norm_num)
  exact Real.rpow_pos_of_pos (by linarith) _

/-- The eutectic composition stays strictly below 0.5 at every nonnegative pressure. -/
lemma Xeut_lt_half {p : ℝ} (hp : 0 ≤ p) : Xeut p < 0.5 := by
  rw [Xeut]
  have hbase : (0:ℝ) < (p + 8.444) ^ ((0.373:ℝ)) := Real.rpow_pos_of_pos (by linarith) _
  rw [div_lt_iff₀ hbase]
  have hmono : (8.444:ℝ) ^ ((0.373:ℝ)) ≤ (p + 8.444) ^ ((0.373:ℝ)) :=
    Real.rpow_le_rpow (by norm_num) (by linarith) (by norm_num)
  have h185 := rpow_8444_gt
  nlinarith

/-- The Fe-rich depression denominator `log(1 - Xeut p)` never vanishes for `p ≥ 0`. -/
lemma log_one_sub_Xeut_ne {p : ℝ} (hp : 0 ≤ p) : Real.log (1 - Xeut p) ≠ 0 := by
  have h1 := Xeut_pos hp
  have h2 := Xeut_lt_half hp
  have h3 : Real.log (1 - Xeut p) < 0 :=
    Real.log_neg (by norm_num at h2 ⊢; linarith) (by linarith)
  exact h3.ne

/-- The FeS-rich depression denominator `log(0.5 + Xeut p)` never vanishes for `p ≥ 0`. -/
lemma log_half_add_Xeut_ne {p : ℝ} (hp : 0 ≤ p) : Real.log (0.5 + Xeut p) ≠ 0 := by
  have h1 := Xeut_pos hp
  have h2 := Xeut_lt_half hp
  have h3 : Real.log (0.5 + Xeut p) < 0 :=
    Real.log_neg (by linarith) (by norm_num at h2 ⊢; linarith)
  exact h3.ne

/-- Every atomic mass stored in the table is positive. -/
lemma u_mass_pos {el : String} {uel : ℝ} (h : u_mass el = some uel) : 0 < uel := by
  rw [u_mass] at h
  split_ifs at h <;> (injection h with h2; rw [← h2]; norm_num)

/-- The table misses a key exactly when it is none of the six supported symbols. -/
lemma u_mass_none_iff (el : String) :
    u_mass el = none ↔ el ∉ (["O", "Na", "Mg", "S", "K", "Fe"] : List String) := by
  rw [u_mass]
  split_ifs <;> simp_all

/-- For positive atomic mass and a mass fraction in `(0, 1]`, the divisor in
`mass2mol` is strictly positive (so the conversion cannot divide by zero). -/
lemma mass2mol_denom_pos (uel x : ℝ) (hu : 0 < uel) (hx0 : 0 < x) (hx1 : x ≤ 1) :
    0 < 1 + uel / uFe * (1 / x - 1) := by
  have hFe : (0:ℝ) < uFe := by rw [uFe]; norm_num
  have h1 : (0:ℝ) ≤ 1 / x - 1 := by
    have h2 : 1 ≤ 1 / x := by rw [le_div_iff₀ hx0]; linarith
    linarith
  have h3 := mul_nonneg (div_pos hu hFe).le h1
  linarith

/-- For positive atomic mass and a mole fraction in `[0, 1]`, the denominator
in `mol2mass` is strictly positive (so the conversion cannot divide by zero). -/
lemma mol2mass_denom_pos (uel x : ℝ) (hu : 0 < uel) (hx0 : 0 ≤ x) (hx1 : x ≤ 1) :
    0 < x * uel + (1 - x) * uFe := by
  have hFe : (0:ℝ) < uFe := by rw [uFe]; norm_num
  rcases eq_or_lt_of_le hx0 with h | h
  · rw [← h]; norm_num; linarith
  · have h2 : (0:ℝ) ≤ (1 - x) * uFe := mul_nonneg (by linarith) hFe.le
    nlinarith [mul_pos h hu]

/-- Core algebra of the mass/mole round trip in a binary el-Fe composite. -/
lemma binary_roundtrip_algebra (uel : ℝ) (hu : 0 < uel) (x : ℝ) (hx0 : 0 < x) (hx1 : x < 1) :
    (1 / (1 + uel / uFe * (1 / x - 1))) * uel /
      ((1 / (1 + uel / uFe * (1 / x - 1))) * uel +
        (1 - 1 / (1 + uel / uFe * (1 / x - 1))) * uFe) = x := by
  have hFe : (0:ℝ) < uFe := by rw [uFe]; norm_num
  have hinv : (0:ℝ) < 1 / x - 1 := by
    have h1 : 1 < 1 / x := by rw [lt_div_iff₀ hx0]; linarith
    linarith
  have hD : (0:ℝ) < 1 + uel / uFe * (1 / x - 1) := by positivity
  set D := 1 + uel / uFe * (1 / x - 1) with hDdef
  have hden : (0:ℝ) < (1 / D) * uel + (1 - 1 / D) * uFe := by
    have hm1 : 1 / D ≤ 1 := by
      rw [div_le_one hD, hDdef]
      nlinarith [mul_pos (div_pos hu hFe) hinv]
    have h2 : (0:ℝ) ≤ (1 - 1 / D) * uFe := mul_nonneg (by linarith) hFe.le
    nlinarith [mul_pos (one_div_pos.mpr hD) hu]
  rw [div_eq_iff hden.ne']
  field_simp [hFe.ne', hx0.ne', hD.ne']
  have e1 : (D - 1) * uFe = uel * (1 / x - 1) := by
    rw [hDdef]; field_simp; ring
  rw [e1]
  field_simp
  ring

set_option maxHeartbeats 1000000 in
/-- Series bounds on `log(47/32)` via the power series of `log(1-x)` at `x = 15/47`. -/
lemma log_4732_bounds :
    (0.3844099:ℝ) < Real.log (47/32) ∧ Real.log (47/32) < 0.3844133 := by
  have hx : |(15/47 : ℝ)| < 1 := by rw [abs_of_pos] <;> norm_num
  have H := Real.abs_log_sub_add_sum_range_le hx 11
  rw [show (1 - (15:ℝ)/47) = ((47:ℝ)/32)⁻¹ by norm_num, Real.log_inv] at H
  rw [show |(15/47 : ℝ)| = 15/47 by rw [abs_of_pos]; norm_num] at H
  rw [abs_le] at H
  obtain ⟨H1, H2⟩ := H
  simp only [Finset.sum_range_succ, Finset.sum_range_zero] at H1 H2
  norm_num at H1 H2
  constructor <;> linarith

/-- Two-sided decimal bounds on `log 23.5`. -/
lemma log_235_bounds :
    (3.1569986:ℝ) < Real.log 23.5 ∧ Real.log 23.5 < 3.1570021 := by
  have h2 : (23.5:ℝ) = 2 ^ (4:ℕ) * (47/32) := by norm_num
  have hl : Real.log 23.5 = 4 * Real.log 2 + Real.log (47/32) := by
    rw [h2, Real.log_mul (by norm_num) (by norm_num), Real.log_pow]
    push_cast; ring
  have ha := Real.log_two_gt_d9
  have hb := Real.log_two_lt_d9
  have hc := log_4732_bounds
  rw [hl]
  constructor <;> nlinarith [hc.1, hc.2]

/-! ## Claim theorems -/

/-- C1: for every pressure `p ≥ 0` and either gradient mode, the alloy melting
point evaluated at the eutectic composition equals the eutectic temperature,
and both branch formulas (Fe-rich and FeS-rich) individually evaluate to
exactly `Teut p` at `X = Xeut p`, so the piecewise definition joins
continuously at the eutectic. -/
theorem Tmalloy_eutectic_continuity (p : ℝ) (mode : String) (hp : 0 ≤ p) :
    Tmalloy p (Xeut p) mode = Teut p ∧
    Tmalloy_Fe p (Xeut p) mode = Teut p ∧
    Tmalloy_FeS p (Xeut p) = Teut p := by
  have hFe : Tmalloy_Fe p (Xeut p) mode = Teut p := by
    rw [Tmalloy_Fe, mul_div_assoc, div_self (log_one_sub_Xeut_ne hp), mul_one]
    ring
  have hFeS : Tmalloy_FeS p (Xeut p) = Teut p := by
    rw [Tmalloy_FeS, mul_div_assoc, div_self (log_half_add_Xeut_ne hp), mul_one]
    ring
  refine ⟨?_, hFe, hFeS⟩
  rw [Tmalloy, if_pos le_rfl, hFe]

/-- Witness for C1 at `p = 0`, flat mode. -/
theorem Tmalloy_eutectic_continuity_witness :
    (0:ℝ) ≤ 0 ∧ Tmalloy 0 (Xeut 0) "f" = Teut 0 :=
  ⟨le_refl 0, (Tmalloy_eutectic_continuity 0 "f" (le_refl 0)).1⟩

/-- C2 counterexample: at the first documented boundary `p = 10` of the
terrestrial peridotite solidus, the two adjacent segment formulas do NOT agree
within floating-point tolerance: they differ by exactly 0.60419 K. -/
theorem Tsol_Earth_boundary10_gap :
    TsE1 10 - TsE2 10 = 0.60419 ∧ ¬ |TsE1 10 - TsE2 10| < 0.1 := by
  have h : TsE1 10 - TsE2 10 = 0.60419 := by norm_num [TsE1, TsE2]
  refine ⟨h, ?_⟩
  rw [h, abs_of_pos (by norm_num)]
  norm_num

/-- C2 (amended): the adjacent formulas agree within 0.01 K at the terrestrial
solidus boundary `p = 23.5` and exactly at the basalt solidus boundaries
`p = 26` and `p = 30` (at 26 the blend piece — which `Tsol_bas 26` evaluates —
equals the garnet formula `Tsgt`, and at 30 the blend formula
`(Tsgt p (30-p) + Tsbr p (p-26))/(30-26)` evaluated at `p = 30` equals the
perovskite formula `Tsbr 30`, which is also the value `Tsol_bas 30` returns);
at `p = 10` (terrestrial) and `p = 3` (basalt) the adjacent formulas differ by
exactly 0.60419 K and 0.84501 K respectively; and
`Tsol_Earth 0 = 1358.81061 ≈ 1358.81`, `Tsol_Earth 10 = 2173.15`. -/
theorem Tsol_boundaries_amended :
    |TsE2 23.5 - TsE3 23.5| < 0.01 ∧
    Tsol_bas 26 = Tsgt 26 ∧
    (Tsgt 30 * (30 - 30) + Tsbr 30 * (30 - 26)) / (30 - 26) = Tsbr 30 ∧
    Tsol_bas 30 = Tsbr 30 ∧
    TsE1 10 - TsE2 10 = 0.60419 ∧ TsbasPlag 3 - Tsgt 3 = 0.84501 ∧
    Tsol_Earth 0 = 1358.81061 ∧ |Tsol_Earth 0 - 1358.81| < 0.001 ∧
    Tsol_Earth 10 = 2173.15 := by
  have h23 : |TsE2 23.5 - TsE3 23.5| < 0.01 := by
    have h := log_235_bounds
    rw [TsE2, TsE3, abs_lt]
    constructor <;> nlinarith [h.1, h.2]
  have h0 : Tsol_Earth 0 = 1358.81061 := by
    rw [Tsol_Earth, if_pos (by norm_num), TsE1]; norm_num
  refine ⟨h23, ?_, by ring, ?_, by norm_num [TsE1, TsE2], by norm_num [TsbasPlag, Tsgt],
    h0, by rw [h0, abs_of_pos (show (0:ℝ) < 1358.81061 - 1358.81 by norm_num)]; norm_num, ?_⟩
  · rw [Tsol_bas, if_neg (by norm_num), if_neg (by norm_num), if_pos (by norm_num)]
    ring
  · rw [Tsol_bas, if_neg (by norm_num), if_neg (by norm_num), if_neg (by norm_num)]
  · rw [Tsol_Earth, if_neg (by norm_num), if_pos (by norm_num), TsE2]
    norm_num

/-- C3: the compositional interpolation at the Earth reference composition
returns exactly the terrestrial solidus at every pressure (the weight and the
alkali correction both vanish). -/
theorem Tsol_intp_at_earth_reference (p : ℝ) : Tsol_intp p ox_E = Tsol_Earth p := by
  rw [Tsol_intp]
  simp only [lt_irrefl, if_neg, sub_self, zero_div, if_false]
  ring

/-- C4: totality of the alloy melting-point evaluation: for `p ≥ 0` and
`X ∈ [0, 0.5]`, the eutectic composition lies strictly between 0 and 0.5,
both logarithmic depression denominators of `Tmalloy` are nonzero, and the
logarithm arguments `1 - X` and `0.5 + X` are strictly positive, so no
division by zero or log domain error can occur. -/
theorem Tmalloy_no_degenerate_denominators (p X : ℝ)
    (hp : 0 ≤ p) (hX0 : 0 ≤ X) (hX1 : X ≤ 0.5) :
    0 < Xeut p ∧ Xeut p < 0.5 ∧
    Real.log (1 - Xeut p) ≠ 0 ∧ Real.log (0.5 + Xeut p) ≠ 0 ∧
    0 < 1 - X ∧ 0 < 0.5 + X := by
  refine ⟨Xeut_pos hp, Xeut_lt_half hp, log_one_sub_Xeut_ne hp,
    log_half_add_Xeut_ne hp, ?_, ?_⟩
  · norm_num at hX1 ⊢; linarith
  · norm_num; linarith

/-- Witness for C4 at `p = 0`, `X = 0.25`. -/
theorem Tmalloy_no_degenerate_denominators_witness :
    ((0:ℝ) ≤ 0 ∧ (0:ℝ) ≤ 0.25 ∧ (0.25:ℝ) ≤ 0.5) ∧
    (0 < Xeut 0 ∧ Xeut 0 < 0.5 ∧
      Real.log (1 - Xeut 0) ≠ 0 ∧ Real.log (0.5 + Xeut 0) ≠ 0 ∧
      (0:ℝ) < 1 - 0.25 ∧ (0:ℝ) < 0.5 + 0.25) :=
  ⟨⟨by norm_num, by norm_num, by norm_num⟩,
    Tmalloy_no_degenerate_denominators 0 0.25 (by norm_num) (by norm_num) (by norm_num)⟩

/-- C5 counterexample: the clamp constant 2557.6807 returned by `Tliqfo` above
14.64 GPa is NOT the value of the cubic fit polynomial at the validity limit:
the polynomial evaluates to exactly 2556.6532933825536 there. -/
theorem Tliqfo_clamp_not_boundary_value :
    Tliqfo 15 = 2557.6807 ∧ Tliqfo_poly 14.64 = 2556.6532933825536 ∧
    (2557.6807:ℝ) - Tliqfo_poly 14.64 = 1.0274066174464 := by
  refine ⟨?_, by norm_num [Tliqfo_poly], by norm_num [Tliqfo_poly]⟩
  rw [Tliqfo, if_pos (by norm_num)]

/-- C5 (amended): for every `p > 14.64` the forsterite liquidus returns the
constant 2557.6807 and signals the out-of-range warning; for every `p ≤ 14.64`
it evaluates the cubic fit polynomial and does not warn; the clamp constant
differs from the polynomial value at the validity limit by exactly
1.0274066174464 K (so the clamp is near, but not equal to, the boundary
value of the fit). -/
theorem Tliqfo_clamp_amended (p : ℝ) :
    (14.64 < p → Tliqfo p = 2557.6807 ∧ Tliqfo_warns p = true) ∧
    (p ≤ 14.64 → Tliqfo p = Tliqfo_poly p ∧ Tliqfo_warns p = false) ∧
    (2557.6807:ℝ) - Tliqfo_poly 14.64 = 1.0274066174464 := by
  refine ⟨fun h => ⟨?_, ?_⟩, fun h => ⟨?_, ?_⟩, by norm_num [Tliqfo_poly]⟩
  · rw [Tliqfo, if_pos h]
  · rw [Tliqfo_warns, if_pos h]
  · rw [Tliqfo, if_neg (not_lt.mpr h)]
  · rw [Tliqfo_warns, if_neg (not_lt.mpr h)]

/-- Witness for C5 at `p = 15` (clamped) and `p = 14` (polynomial). -/
theorem Tliqfo_clamp_amended_witness :
    (Tliqfo 15 = 2557.6807 ∧ Tliqfo_warns 15 = true) ∧
    (Tliqfo 14 = Tliqfo_poly 14 ∧ Tliqfo_warns 14 = false) :=
  ⟨(Tliqfo_clamp_amended 15).1 (by norm_num), (Tliqfo_clamp_amended 14).2.1 (by norm_num)⟩

/-- C6: mass/mole round trip: for every element present in the atomic-mass
table and every mass fraction `x ∈ (0,1)`, converting `x` to a mole fraction
and back returns exactly `x` (both calls succeed). -/
theorem mass_mole_roundtrip (el : String) (uel x : ℝ) (h : u_mass el = some uel)
    (hx0 : 0 < x) (hx1 : x < 1) :
    ∃ m, mass2mol el x = Except.ok m ∧ mol2mass el m = Except.ok x := by
  have hu := u_mass_pos h
  have hD : 0 < 1 + uel / uFe * (1 / x - 1) := mass2mol_denom_pos uel x hu hx0 hx1.le
  have hm0 : 0 < 1 / (1 + uel / uFe * (1 / x - 1)) := by positivity
  have hm1 : 1 / (1 + uel / uFe * (1 / x - 1)) ≤ 1 := by
    rw [div_le_one hD]
    have hFe : (0:ℝ) < uFe := by rw [uFe]; norm_num
    have h1 : (0:ℝ) ≤ 1 / x - 1 := by
      have h2 : 1 ≤ 1 / x := by rw [le_div_iff₀ hx0]; linarith
      linarith
    nlinarith [mul_nonneg (div_pos hu hFe).le h1]
  have hden : 0 < (1 / (1 + uel / uFe * (1 / x - 1))) * uel +
      (1 - 1 / (1 + uel / uFe * (1 / x - 1))) * uFe :=
    mol2mass_denom_pos uel _ hu hm0.le hm1
  refine ⟨1 / (1 + uel / uFe * (1 / x - 1)), ?_, ?_⟩
  · rw [mass2mol, h]
    simp only [if_neg hx0.ne', if_neg hD.ne']
  · rw [mol2mass, h]
    simp only [if_neg hden.ne']
    exact congrArg Except.ok (binary_roundtrip_algebra uel hu x hx0 hx1)

/-- Witness for C6 at element `S`, mass fraction 1/2. -/
theorem mass_mole_roundtrip_witness :
    u_mass "S" = some 0.03206 ∧ (0:ℝ) < 1/2 ∧ (1/2:ℝ) < 1 ∧
    ∃ m, mass2mol "S" (1/2) = Except.ok m ∧ mol2mass "S" m = Except.ok (1/2) :=
  ⟨by simp +decide [u_mass], by norm_num, by norm_num,
    mass_mole_roundtrip "S" 0.03206 (1/2) (by simp +decide [u_mass])
      (by norm_num) (by norm_num)⟩

/-- C7 counterexample: the eutectic composition at zero pressure is NOT
approximately 0.372: it differs from 0.372 by more than 0.04. -/
theorem Xeut_zero_far_from_0372 : (0.04:ℝ) < |Xeut 0 - 0.372| := by
  have h0 : Xeut 0 = 0.925 / (8.444:ℝ) ^ ((0.373:ℝ)) := by rw [Xeut]; norm_num
  have hb := rpow_8444_bounds
  have hpos : (0:ℝ) < (8.444:ℝ) ^ ((0.373:ℝ)) := Real.rpow_pos_of_pos (by norm_num) _
  have hgt : (0.416:ℝ) < Xeut 0 := by
    rw [h0, lt_div_iff₀ hpos]; nlinarith [hb.2]
  calc (0.04:ℝ) < Xeut 0 - 0.372 := by linarith
  _ ≤ |Xeut 0 - 0.372| := le_abs_self _

/-- C7 (amended): the eutectic composition at zero pressure equals the closed
form `0.925 × 8.444^(-0.373)`, and this value is approximately 0.417 (not
0.372): it lies within 0.001 of 0.417. -/
theorem Xeut_zero_closed_form_amended :
    Xeut 0 = 0.925 / (8.444:ℝ) ^ ((0.373:ℝ)) ∧ |Xeut 0 - 0.417| < 0.001 := by
  have h0 : Xeut 0 = 0.925 / (8.444:ℝ) ^ ((0.373:ℝ)) := by rw [Xeut]; norm_num
  have hb := rpow_8444_bounds
  have hpos : (0:ℝ) < (8.444:ℝ) ^ ((0.373:ℝ)) := Real.rpow_pos_of_pos (by norm_num) _
  refine ⟨h0, ?_⟩
  rw [abs_lt, h0]
  constructor
  · rw [lt_sub_iff_add_lt, lt_div_iff₀ hpos]
    nlinarith [hb.2]
  · rw [sub_lt_iff_lt_add, div_lt_iff₀ hpos]
    nlinarith [hb.1]

/-- C8 counterexample: for the supported element symbol `S` and mass fraction
`x = 0` the conversion `mass2mol` DOES raise (`ZeroDivisionError`, from the
Python division `1./xel`), so the claim that no supported symbol makes either
conversion function raise is false at this concrete input. -/
theorem mass2mol_raises_at_zero :
    u_mass "S" = some 0.03206 ∧
    mass2mol "S" 0 = Except.error "ZeroDivisionError: float division by zero" := by
  have hS : u_mass "S" = some 0.03206 := by simp +decide [u_mass]
  refine ⟨hS, ?_⟩
  rw [mass2mol, hS]
  simp

/-- C8 (amended): an element symbol outside the table (not one of O, Na, Mg,
S, K, Fe) makes both conversion functions fail with the descriptive
unavailable-element error (they do not silently return a number); for every
supported symbol the conversions return a value wherever their Python
divisions are defined — `mass2mol` for every mass fraction in `(0, 1]` and
`mol2mass` for every mole fraction in `[0, 1]` — but not unconditionally,
since `mass2mol` raises `ZeroDivisionError` at mass fraction 0. -/
theorem conversion_unsupported_element (el : String) (x : ℝ) :
    (el ∉ (["O", "Na", "Mg", "S", "K", "Fe"] : List String) →
      mass2mol el x = Except.error ("Atomic mass for element " ++ el ++ " unavailable.") ∧
      mol2mass el x = Except.error ("Atomic mass for element " ++ el ++ " unavailable.")) ∧
    (el ∈ (["O", "Na", "Mg", "S", "K", "Fe"] : List String) → 0 < x → x ≤ 1 →
      ∃ a, mass2mol el x = Except.ok a) ∧
    (el ∈ (["O", "Na", "Mg", "S", "K", "Fe"] : List String) → 0 ≤ x → x ≤ 1 →
      ∃ b, mol2mass el x = Except.ok b) := by
  have hs : el ∈ (["O", "Na", "Mg", "S", "K", "Fe"] : List String) →
      ∃ uel, u_mass el = some uel := by
    intro h
    cases hu : u_mass el with
    | none => exact absurd ((u_mass_none_iff el).mp hu) (not_not.mpr h)
    | some v => exact ⟨v, rfl⟩
  refine ⟨?_, ?_, ?_⟩
  · intro h
    have hn : u_mass el = none := (u_mass_none_iff el).mpr h
    exact ⟨by rw [mass2mol, hn], by rw [mol2mass, hn]⟩
  · intro h hx0 hx1
    obtain ⟨uel, hu⟩ := hs h
    have hD : 0 < 1 + uel / uFe * (1 / x - 1) :=
      mass2mol_denom_pos uel x (u_mass_pos hu) hx0 hx1
    refine ⟨1 / (1 + uel / uFe * (1 / x - 1)), ?_⟩
    rw [mass2mol, hu]
    simp only [if_neg hx0.ne', if_neg hD.ne']
  · intro h hx0 hx1
    obtain ⟨uel, hu⟩ := hs h
    have hden : 0 < x * uel + (1 - x) * uFe :=
      mol2mass_denom_pos uel x (u_mass_pos hu) hx0 hx1
    refine ⟨x * uel / (x * uel + (1 - x) * uFe), ?_⟩
    rw [mol2mass, hu]
    simp only [if_neg hden.ne']

/-- Witness for C8: the unsupported symbol `Xy` errors, the supported symbol
`Fe` succeeds on both conversions at fraction 0.3. -/
theorem conversion_unsupported_element_witness :
    (mass2mol "Xy" 0.3 = Except.error ("Atomic mass for element " ++ "Xy" ++ " unavailable.") ∧
      mol2mass "Xy" 0.3 = Except.error ("Atomic mass for element " ++ "Xy" ++ " unavailable.")) ∧
    (∃ a, mass2mol "Fe" 0.3 = Except.ok a) ∧
    (∃ b, mol2mass "Fe" 0.3 = Except.ok b) :=
  ⟨(conversion_unsupported_element "Xy" 0.3).1 (by decide),
    (conversion_unsupported_element "Fe" 0.3).2.1 (by decide) (by norm_num) (by norm_num),
    (conversion_unsupported_element "Fe" 0.3).2.2 (by decide) (by norm_num) (by norm_num)⟩

/-- C9 counterexample: calling the compositional interpolation does NOT leave
the module-level state unchanged: starting from unassigned module variables,
the call assigns both `Mg0` and `Mg0_E`. -/
theorem Tsol_intp_writes_globals :
    (Tsol_intp_st 0 ox_E ⟨none, none⟩).2 ≠ (⟨none, none⟩ : GState) := by
  rw [Tsol_intp_st]
  intro h
  have h2 := congrArg GState.Mg0 h
  simp at h2

/-- C9 (amended): the core evaluation functions read only their arguments and
immutable constants — in particular both the return value and the post-call
module state of `Tsol_intp` are independent of the prior module state, so
calls with equal arguments agree regardless of call order — but `Tsol_intp`
does write the module variables `Mg0` and `Mg0_E` on every call. -/
theorem Tsol_intp_state_independent (p : ℝ) (ox : Ox) (s₁ s₂ : GState) :
    (Tsol_intp_st p ox s₁).1 = Tsol_intp p ox ∧
    (Tsol_intp_st p ox s₁).1 = (Tsol_intp_st p ox s₂).1 ∧
    (Tsol_intp_st p ox s₁).2 = (Tsol_intp_st p ox s₂).2 ∧
    (Tsol_intp_st p ox s₁).2 = ⟨some (mgNumber ox), some (mgNumber ox_E)⟩ :=
  ⟨rfl, rfl, rfl, rfl⟩

/-- C10: the gradient-mode selector of the iron melting curve is never
validated: `Tliq_Fe` evaluates the flat piecewise fit exactly when the mode
string is `f`, and for every other mode value, including unrecognized
strings, it silently evaluates the steep cubic; no value errors. -/
theorem Tliq_Fe_mode_dispatch (p : ℝ) (mode : String) :
    (mode = "f" → Tliq_Fe p mode = TliqFe_flat p) ∧
    (mode ≠ "f" → Tliq_Fe p mode = TliqFe_steep p) := by
  constructor
  · intro h; rw [Tliq_Fe, if_pos h]
  · intro h; rw [Tliq_Fe, if_neg h]

/-- Witness for C10 at modes `f`, `s` and an arbitrary unrecognized string. -/
theorem Tliq_Fe_mode_dispatch_witness :
    Tliq_Fe 1 "f" = TliqFe_flat 1 ∧ Tliq_Fe 1 "s" = TliqFe_steep 1 ∧
    Tliq_Fe 1 "zz" = TliqFe_steep 1 :=
  ⟨(Tliq_Fe_mode_dispatch 1 "f").1 rfl,
    (Tliq_Fe_mode_dispatch 1 "s").2 (by decide),
    (Tliq_Fe_mode_dispatch 1 "zz").2 (by decide)⟩
